import Mathlib

/-!
# Verification of the pctl service-account JWT-Bearer token pipeline

Shallow embedding of the token core of the `pctl` repository:

* `jwkToRSAPrivateKey` — reconstruction of an RSA private key from a JWK
  record (internal/token, `ServiceAccountGenerator`);
* `createJWTAssertion` — assembly of the signed claim set
  `{iss, sub, aud, exp, jti}`;
* `exchangeJWTForToken` — status/body handling of the token-endpoint
  response;
* `Validate` / `Client.Generate` (pkg/token) — configuration validation
  gating the pipeline;
* `LoadConfig` (pkg/token) — lifetime normalisation of file-loaded
  configurations.

Bytes are modelled as `Nat` values below 256, big integers as `Nat`,
`time.Duration` as an `Int` count of nanoseconds, and instants as `Int`
Unix seconds.  Go's `base64.RawURLEncoding` (RFC 4648 §5, unpadded,
non-strict: no check of trailing bits, input of length ≡ 1 (mod 4)
rejected, every character must be in the alphabet) is embedded
executably.
-/

namespace Pctl

/-- The 64-character base64url alphabet of RFC 4648 §5, as used by Go's
`base64.RawURLEncoding`. -/
def b64urlAlphabet : List Char :=
  "ABCDEFGHIJKLMNOPQRSTUVWXYZabcdefghijklmnopqrstuvwxyz0123456789-_".data

/-- Character for a 6-bit group. -/
def b64urlChar (i : Nat) : Char := b64urlAlphabet.getD i 'A'

/-- Index of a character in the base64url alphabet; `none` when the
character is not in the alphabet (Go: `CorruptInputError`). -/
def b64urlCharIndex (c : Char) : Option Nat :=
  b64urlAlphabet.indexOf? c

/-- Split a big-endian byte list into 6-bit groups, exactly as the
base64 encoder consumes it: three bytes become four sextets, a two-byte
tail becomes three sextets, a one-byte tail becomes two. -/
def b64urlSextets : List Nat → List Nat
  | b0 :: b1 :: b2 :: rest =>
      (b0 / 4) :: ((b0 % 4) * 16 + b1 / 16) :: ((b1 % 16) * 4 + b2 / 64) ::
        (b2 % 64) :: b64urlSextets rest
  | [b0, b1] => [b0 / 4, (b0 % 4) * 16 + b1 / 16, (b1 % 16) * 4]
  | [b0] => [b0 / 4, (b0 % 4) * 16]
  | [] => []

/-- Reassemble bytes from 6-bit groups (the decoding direction of
RFC 4648 §5 without padding). -/
def b64urlUnsextets : List Nat → List Nat
  | s0 :: s1 :: s2 :: s3 :: rest =>
      (s0 * 4 + s1 / 16) :: ((s1 % 16) * 16 + s2 / 4) :: ((s2 % 4) * 64 + s3) ::
        b64urlUnsextets rest
  | [s0, s1, s2] => [s0 * 4 + s1 / 16, (s1 % 16) * 16 + s2 / 4]
  | [s0, s1] => [s0 * 4 + s1 / 16]
  | _ => []

/-- `base64.RawURLEncoding.EncodeToString` on a byte list. -/
def b64urlEncode (bytes : List Nat) : String :=
  ⟨(b64urlSextets bytes).map b64urlChar⟩

/-- The characters of `s` with CR and LF removed: Go's base64 decoder
(`decodeQuantum`) skips a `'\r'` or `'\n'` anywhere in its input before
any other processing. -/
def b64urlStripNewlines (s : String) : List Char :=
  s.data.filter (fun c => !(c == '\n' || c == '\r'))

/-- Validity condition of `base64.RawURLEncoding.DecodeString`: after
the CR/LF skipping, every remaining character lies in the alphabet and
the remaining length is not ≡ 1 (mod 4) (no-padding leftover rule).
(Go's non-strict decoder does not reject non-zero trailing bits.) -/
def b64urlValid (s : String) : Bool :=
  (b64urlStripNewlines s).all (fun c => (b64urlCharIndex c).isSome) &&
    (b64urlStripNewlines s).length % 4 != 1

/-- `base64.RawURLEncoding.DecodeString` on the embedding: `none` is the
error case; the decoded bytes come from the CR/LF-stripped characters. -/
def b64urlDecode (s : String) : Option (List Nat) :=
  if b64urlValid s then
    some (b64urlUnsextets
      ((b64urlStripNewlines s).map (fun c => (b64urlCharIndex c).getD 0)))
  else
    none

/-- Decidable equality for `Except`, so that concrete runs of the
embedded fallible functions can be checked by evaluation. -/
instance exceptDecEq {e a : Type} [DecidableEq e] [DecidableEq a] :
    DecidableEq (Except e a) := fun x y =>
  match x, y with
  | .error u, .error v =>
    if h : u = v then .isTrue (by rw [h])
    else .isFalse (fun heq => h (by simpa using heq))
  | .ok u, .ok v =>
    if h : u = v then .isTrue (by rw [h])
    else .isFalse (fun heq => h (by simpa using heq))
  | .error _, .ok _ => .isFalse (fun heq => Except.noConfusion heq)
  | .ok _, .error _ => .isFalse (fun heq => Except.noConfusion heq)

/-- `new(big.Int).SetBytes`: big-endian unsigned interpretation. -/
def bytesToNat (bytes : List Nat) : Nat :=
  bytes.foldl (fun acc b => acc * 256 + b) 0

/-- The `JWK` struct of internal/token (JSON Web Key).  Go's
`json.Unmarshal` leaves an absent field at the zero value, so a missing
field is the empty string. -/
structure JWK where
  kty : String := ""
  use : String := ""
  kid : String := ""
  n : String := ""
  e : String := ""
  d : String := ""
  p : String := ""
  q : String := ""
  dp : String := ""
  dq : String := ""
  qi : String := ""
deriving DecidableEq, Repr

/-- The fields of `rsa.PrivateKey` that `jwkToRSAPrivateKey` populates
(`Precompute` only caches CRT values derived from these). -/
structure RSAPrivateKey where
  n : Nat
  e : Nat
  d : Nat
  primes : List Nat
deriving DecidableEq, Repr

/-- `jwkToRSAPrivateKey`: base64url-decode `n`, `d`, `p`, `q` in that
order (first failure wins, each error naming the field), interpret each
as a big-endian unsigned integer, and fix the public exponent to 65537.
The `e` field of the JWK is never consulted. -/
def jwkToRSAPrivateKey (jwk : JWK) : Except String RSAPrivateKey :=
  match b64urlDecode jwk.n with
  | none => .error "failed to decode modulus"
  | some nB =>
    match b64urlDecode jwk.d with
    | none => .error "failed to decode private exponent"
    | some dB =>
      match b64urlDecode jwk.p with
      | none => .error "failed to decode first prime"
      | some pB =>
        match b64urlDecode jwk.q with
        | none => .error "failed to decode second prime"
        | some qB =>
          .ok { n := bytesToNat nB, e := 65537, d := bytesToNat dB,
                primes := [bytesToNat pB, bytesToNat qB] }

/-- The `TokenConfig` record of internal/token, restricted to the fields
the embedded functions read.  Field types follow their uses in the
source: `ExpSeconds` is a Go `int`, `ExpiresIn` a `time.Duration`
(nanoseconds).  Zero values are the Go/YAML defaults. -/
structure TokenConfig where
  type : String := ""
  serviceAccountID : String := ""
  platform : String := ""
  baseURL : String := ""
  scope : String := ""
  scopes : List String := []
  jwkJson : String := ""
  privateKey : String := ""
  username : String := ""
  password : String := ""
  clientID : String := ""
  clientSecret : String := ""
  expSeconds : Int := 0
  expiresIn : Int := 0
deriving DecidableEq, Repr

/-- `strings.TrimRight(s, "/")`: drop every trailing slash. -/
def trimRightSlashes (s : String) : String :=
  ⟨(s.data.reverse.dropWhile (fun c => c = '/')).reverse⟩

/-- The audience URL built inside `createJWTAssertion`: the base URL with
trailing slashes stripped (falling back to the platform field when that
leaves the empty string) followed by the fixed OAuth2 token path. -/
def assertionAudience (cfg : TokenConfig) : String :=
  let base := trimRightSlashes cfg.baseURL
  let base := if base = "" then trimRightSlashes cfg.platform else base
  base ++ "/am/oauth2/access_token"

/-- The token endpoint URL built inside `exchangeJWTForToken` (the source
duplicates the derivation verbatim). -/
def exchangeTokenURL (cfg : TokenConfig) : String :=
  let baseURL := trimRightSlashes cfg.baseURL
  let baseURL := if baseURL = "" then trimRightSlashes cfg.platform else baseURL
  baseURL ++ "/am/oauth2/access_token"

/-- `int(d.Seconds())` for a `time.Duration` of `d` nanoseconds:
truncation toward zero.  (The Go expression goes through `float64`,
which is exact for |d| < 2^53 ns, about 104 days.) -/
def durationSeconds (d : Int) : Int :=
  if d < 0 then -(((-d).toNat / 1000000000 : Nat) : Int)
  else ((d.toNat / 1000000000 : Nat) : Int)

/-- The lifetime resolution of `createJWTAssertion`: the seconds-form
field if non-zero, else the duration-form field truncated to whole
seconds if non-zero, else 899. -/
def resolveLifetime (expSeconds expiresIn : Int) : Int :=
  let e1 := if expSeconds = 0 then durationSeconds expiresIn else expSeconds
  if e1 = 0 then 899 else e1

/-- The guard of the 899 default branch of the lifetime resolution:
taken when the seconds-form field is zero and the duration-form field
truncates to zero whole seconds. -/
def lifetimeDefaultBranch (expSeconds expiresIn : Int) : Prop :=
  (if expSeconds = 0 then durationSeconds expiresIn else expSeconds) = 0

/-- The claim set signed by `createJWTAssertion`. -/
structure JWTClaims where
  iss : String
  sub : String
  aud : String
  exp : Int
  jti : String
deriving DecidableEq, Repr

/-- `createJWTAssertion`, up to the signature: the claim set it signs.
`nowUnix` is `time.Now().Unix()` at signing; `jtiBytes` the 16 bytes
filled by `crypto/rand`. -/
def createJWTAssertion (cfg : TokenConfig) (nowUnix : Int)
    (jtiBytes : List Nat) : JWTClaims :=
  { iss := cfg.serviceAccountID
    sub := cfg.serviceAccountID
    aud := assertionAudience cfg
    exp := nowUnix + resolveLifetime cfg.expSeconds cfg.expiresIn
    jti := b64urlEncode jtiBytes }

/-- The token type identifiers of internal/token. -/
def TokenTypeServiceAccount : String := "service-account"

def TokenTypeUser : String := "user"

def TokenTypeCustom : String := "custom"

/-- `Validate` of pkg/token: base URL or platform required, then
per-type required fields. -/
def Validate (c : TokenConfig) : Except String Unit :=
  if c.baseURL = "" ∧ c.platform = "" then
    .error "baseUrl or platform is required"
  else if c.type = TokenTypeServiceAccount then
    if c.serviceAccountID = "" then
      .error "service_account_id is required for service account tokens"
    else if c.jwkJson = "" ∧ c.privateKey = "" then
      .error "jwk_json or privateKey is required for service account tokens"
    else .ok ()
  else if c.type = TokenTypeUser then
    if c.username = "" then .error "username is required for user tokens"
    else if c.password = "" then .error "password is required for user tokens"
    else .ok ()
  else if c.type = TokenTypeCustom then
    if c.clientID = "" then .error "clientId is required for custom tokens"
    else if c.clientSecret = "" then .error "clientSecret is required for custom tokens"
    else .ok ()
  else
    .error ("invalid token type: " ++ c.type)

/-- Result record of a successful exchange (`TokenResult` of
internal/token, with the metadata entries `Generate` writes). -/
structure ResultMetadata where
  serviceAccountID : String
  generatedAtUnix : Int
  platform : String
deriving DecidableEq, Repr

structure TokenResult where
  accessToken : String
  tokenType : String
  expiresIn : Int
  expiresAtUnix : Int
  scope : String
  metadata : ResultMetadata
deriving DecidableEq, Repr

/-- `Client.Generate` of pkg/token: validation gates the pipeline; the
pipeline (generator dispatch and everything behind it) is abstracted as
a function argument, so that theorems can state its non-involvement. -/
def clientGenerate (c : TokenConfig)
    (pipeline : TokenConfig → Except String TokenResult) :
    Except String TokenResult :=
  match Validate c with
  | .error e => .error ("configuration validation failed: " ++ e)
  | .ok _ =>
    if c.type = TokenTypeServiceAccount ∨ c.type = TokenTypeUser ∨
        c.type = TokenTypeCustom then
      pipeline c
    else
      .error ("unsupported token type: " ++ c.type)

/-- The lifetime-relevant normalisation steps of `LoadConfig` of
pkg/token, applied to the parsed YAML record: default the type, funnel
the platform field into the base URL, convert a positive seconds-form
lifetime into the duration form, default the duration form to one hour,
and split a single scope string. -/
def loadConfigNormalize (c : TokenConfig) : TokenConfig :=
  let c := if c.type = "" then { c with type := TokenTypeServiceAccount } else c
  let c := if c.platform ≠ "" ∧ c.baseURL = "" then { c with baseURL := c.platform } else c
  let c := if c.expSeconds > 0 ∧ c.expiresIn = 0 then
    { c with expiresIn := c.expSeconds * 1000000000 } else c
  let c := if c.expiresIn = 0 then { c with expiresIn := 3600 * 1000000000 } else c
  let c := if c.scope ≠ "" ∧ c.scopes = [] then { c with scopes := c.scope.splitOn " " } else c
  c

/-- The shape of a parsed 200-response JSON object for the fields of
`PaicTokenResponse`; `none` is an absent key. -/
structure PaicTokenJSON where
  access_token : Option String := none
  token_type : Option String := none
  expires_in : Option Int := none
  scope : Option String := none
deriving DecidableEq, Repr

/-- The `PaicTokenResponse` struct after `json.Unmarshal`: absent fields
keep their zero values. -/
structure PaicTokenResponse where
  accessToken : String
  tokenType : String
  expiresIn : Int
  scope : String
deriving DecidableEq, Repr

def unmarshalPaicTokenResponse (j : PaicTokenJSON) : PaicTokenResponse :=
  { accessToken := j.access_token.getD ""
    tokenType := j.token_type.getD ""
    expiresIn := j.expires_in.getD 0
    scope := j.scope.getD "" }

/-- The response handling of `exchangeJWTForToken` after the body has
been read: a non-200 status is an error carrying the status and the raw
body; on 200 the body is parsed (`parsed` is the outcome of
`json.Unmarshal` on the body). -/
def handleTokenResponse (status : Nat) (body : String)
    (parsed : Option PaicTokenJSON) : Except String PaicTokenResponse :=
  if status ≠ 200 then
    .error ("token request failed with status " ++ toString status ++ ": " ++ body)
  else
    match parsed with
    | none => .error "failed to parse token response"
    | some j => .ok (unmarshalPaicTokenResponse j)

/-- The result construction at the end of `ServiceAccountGenerator.Generate`:
`expiresAt = now + expires_in seconds`, derived locally, and the metadata
map written there. -/
def buildTokenResult (cfg : TokenConfig) (nowUnix : Int)
    (resp : PaicTokenResponse) : TokenResult :=
  { accessToken := resp.accessToken
    tokenType := resp.tokenType
    expiresIn := resp.expiresIn
    expiresAtUnix := nowUnix + resp.expiresIn
    scope := resp.scope
    metadata := { serviceAccountID := cfg.serviceAccountID
                  generatedAtUnix := nowUnix
                  platform := cfg.platform } }

/-- `ServiceAccountGenerator.Generate` as a pipeline over its effects:
`parsedJWK` is the outcome of `json.Unmarshal` on `cfg.jwkJson`;
`sign` abstracts `token.SignedString` (RSA-SHA256 over the claims);
`network` abstracts the HTTP POST, returning status and raw body;
`parseBody` abstracts `json.Unmarshal` on the response body.  Each stage
errors out before the next stage runs, wrapping the message exactly as
the source does. -/
def serviceAccountGenerate (cfg : TokenConfig) (parsedJWK : Option JWK)
    (nowSign nowResult : Int) (jtiBytes : List Nat)
    (sign : RSAPrivateKey → JWTClaims → Except String String)
    (network : String → Nat × String)
    (parseBody : String → Option PaicTokenJSON) :
    Except String TokenResult :=
  match parsedJWK with
  | none => .error "failed to parse JWK"
  | some jwk =>
    match jwkToRSAPrivateKey jwk with
    | .error e => .error ("failed to convert JWK to RSA private key: " ++ e)
    | .ok key =>
      let claims := createJWTAssertion cfg nowSign jtiBytes
      match sign key claims with
      | .error e => .error ("failed to create JWT assertion: " ++ e)
      | .ok assertion =>
        let resp := network assertion
        match handleTokenResponse resp.1 resp.2 (parseBody resp.2) with
        | .error e => .error ("failed to exchange JWT for token: " ++ e)
        | .ok tok => .ok (buildTokenResult cfg nowResult tok)

/-- A service-account configuration carrying both key sources at once
(raw JWK material and a private key). -/
def cfgTwoKeySources : TokenConfig :=
  { type := TokenTypeServiceAccount, serviceAccountID := "sa-id",
    baseURL := "https://example.com", jwkJson := "jwk", privateKey := "pem" }

/-- A minimal valid service-account configuration. -/
def cfgValidServiceAccount : TokenConfig :=
  { type := "service-account", serviceAccountID := "sa",
    platform := "https://example.com", jwkJson := "jwk" }

/-- A file configuration setting only a duration-form lifetime of half a
second (500000000 ns). -/
def cfgSubsecondLifetime : TokenConfig := { expiresIn := 500000000 }

/-! ## Properties of the base64url embedding -/

theorem b64urlDecode_skips_newlines :
    b64urlDecode "AQ\nAB" = b64urlDecode "AQAB" ∧
    b64urlDecode "AQ\nAB" = some [1, 0, 1] ∧
    b64urlDecode "AQ\r\nAB" = some [1, 0, 1] := by
  decide

theorem b64urlCharIndex_b64urlChar :
    ∀ i : Nat, i < 64 → b64urlCharIndex (b64urlChar i) = some i := by
  decide

theorem b64urlSextets_lt (l : List Nat) (hl : ∀ b ∈ l, b < 256) :
    ∀ s ∈ b64urlSextets l, s < 64 := by
  induction l using b64urlSextets.induct with
  | case1 b0 b1 b2 rest ih =>
    simp only [b64urlSextets, List.mem_cons] at *
    intro s hs
    have h0 := hl b0 (by tauto)
    have h1 := hl b1 (by tauto)
    have h2 := hl b2 (by tauto)
    rcases hs with h | h | h | h | h
    · omega
    · omega
    · omega
    · omega
    · exact ih (fun b hb => hl b (by tauto)) s h
  | case2 b0 b1 =>
    simp only [b64urlSextets, List.mem_cons] at *
    intro s hs
    have h0 := hl b0 (by tauto)
    have h1 := hl b1 (by tauto)
    rcases hs with h | h | h | h <;> first | omega | simp at h
  | case3 b0 =>
    simp only [b64urlSextets, List.mem_cons] at *
    intro s hs
    have h0 := hl b0 (by tauto)
    rcases hs with h | h | h <;> first | omega | simp at h
  | case4 => intro s hs; simp [b64urlSextets] at hs

theorem b64urlUnsextets_b64urlSextets (l : List Nat)
    (hl : ∀ b ∈ l, b < 256) :
    b64urlUnsextets (b64urlSextets l) = l := by
  induction l using b64urlSextets.induct with
  | case1 b0 b1 b2 rest ih =>
    have h0 := hl b0 (by simp)
    have h1 := hl b1 (by simp)
    have h2 := hl b2 (by simp)
    simp only [b64urlSextets, b64urlUnsextets, List.cons.injEq]
    refine ⟨by omega, by omega, by omega, ih (fun b hb => hl b (by simp [hb]))⟩
  | case2 b0 b1 =>
    have h0 := hl b0 (by simp)
    have h1 := hl b1 (by simp)
    simp only [b64urlSextets, b64urlUnsextets, List.cons.injEq]
    refine ⟨by omega, by omega, trivial⟩
  | case3 b0 =>
    have h0 := hl b0 (by simp)
    simp only [b64urlSextets, b64urlUnsextets, List.cons.injEq]
    refine ⟨by omega, trivial⟩
  | case4 => rfl

theorem map_b64urlCharIndex_b64urlChar (ss : List Nat)
    (hs : ∀ s ∈ ss, s < 64) :
    ss.map (fun s => (b64urlCharIndex (b64urlChar s)).getD 0) = ss := by
  induction ss with
  | nil => rfl
  | cons a t ih =>
    have ha : a < 64 := hs a (by simp)
    simp [b64urlCharIndex_b64urlChar a ha, ih (fun s h => hs s (by simp [h]))]

theorem b64urlEncode_injOn (l1 l2 : List Nat)
    (h1 : ∀ b ∈ l1, b < 256) (h2 : ∀ b ∈ l2, b < 256)
    (he : b64urlEncode l1 = b64urlEncode l2) : l1 = l2 := by
  have hdata : (b64urlSextets l1).map b64urlChar =
      (b64urlSextets l2).map b64urlChar := by
    have := congrArg String.data he
    simpa [b64urlEncode] using this
  have hsex : b64urlSextets l1 = b64urlSextets l2 := by
    have hmap := congrArg (List.map (fun c => (b64urlCharIndex c).getD 0)) hdata
    rw [List.map_map, List.map_map] at hmap
    have e1 := map_b64urlCharIndex_b64urlChar (b64urlSextets l1) (b64urlSextets_lt l1 h1)
    have e2 := map_b64urlCharIndex_b64urlChar (b64urlSextets l2) (b64urlSextets_lt l2 h2)
    simp only [Function.comp_def] at hmap
    rw [e1, e2] at hmap
    exact hmap
  calc l1 = b64urlUnsextets (b64urlSextets l1) := (b64urlUnsextets_b64urlSextets l1 h1).symm
    _ = b64urlUnsextets (b64urlSextets l2) := by rw [hsex]
    _ = l2 := b64urlUnsextets_b64urlSextets l2 h2

theorem b64urlSextets_length (l : List Nat) :
    (b64urlSextets l).length = (4 * l.length + 2) / 3 := by
  induction l using b64urlSextets.induct with
  | case1 b0 b1 b2 rest ih =>
    simp only [b64urlSextets, List.length_cons] at *
    omega
  | case2 b0 b1 => simp [b64urlSextets]
  | case3 b0 => simp [b64urlSextets]
  | case4 => simp [b64urlSextets]

theorem b64urlEncode_length (l : List Nat) :
    (b64urlEncode l).length = (4 * l.length + 2) / 3 := by
  simp [b64urlEncode, String.length, b64urlSextets_length]

/-! ## Helper lemmas on URL derivation and configuration -/

/-- The two copies of the URL derivation (assertion audience and exchange
endpoint) agree on every configuration. -/
theorem assertionAudience_eq_exchangeTokenURL (cfg : TokenConfig) :
    assertionAudience cfg = exchangeTokenURL cfg := rfl

theorem trimRightSlashes_append_slash (s : String) :
    trimRightSlashes (s ++ "/") = trimRightSlashes s := by
  have hdata : (s ++ "/").data = s.data ++ ['/'] := rfl
  simp [trimRightSlashes, hdata]

theorem loadConfigNormalize_expSeconds (c : TokenConfig) :
    (loadConfigNormalize c).expSeconds = c.expSeconds := by
  simp only [loadConfigNormalize]
  split_ifs <;> rfl

theorem loadConfigNormalize_expiresIn (c : TokenConfig) :
    (loadConfigNormalize c).expiresIn =
      if c.expSeconds > 0 ∧ c.expiresIn = 0 then c.expSeconds * 1000000000
      else if c.expiresIn = 0 then 3600 * 1000000000
      else c.expiresIn := by
  simp only [loadConfigNormalize]
  split_ifs <;> first | rfl | omega | simp_all

/-! ## Claim theorems -/

/-- C2: the assertion lifetime is resolved in exactly this order: the
seconds-form field if non-zero, else the duration-form field truncated
to whole seconds if non-zero, else exactly 899; with no lifetime field
set at all the resolved lifetime equals 899. -/
theorem lifetime_resolution_order (es ein : Int) :
    (es ≠ 0 → resolveLifetime es ein = es) ∧
    (es = 0 → durationSeconds ein ≠ 0 →
      resolveLifetime es ein = durationSeconds ein) ∧
    (es = 0 → durationSeconds ein = 0 → resolveLifetime es ein = 899) ∧
    resolveLifetime 0 0 = 899 := by
  refine ⟨fun h => ?_, fun h1 h2 => ?_, fun h1 h2 => ?_, by decide⟩
  · simp [resolveLifetime, h]
  · simp [resolveLifetime, h1, h2]
  · simp [resolveLifetime, h1, h2]

theorem lifetime_resolution_order_witness :
    resolveLifetime 5 7000000000 = 5 ∧
    resolveLifetime 0 2500000000 = 2 ∧
    resolveLifetime 0 0 = 899 := by
  have h5 := (lifetime_resolution_order 5 7000000000).1 (by decide)
  have h2 := (lifetime_resolution_order 0 2500000000).2.1 rfl (by decide)
  have h899 := (lifetime_resolution_order 0 0).2.2.2
  exact ⟨h5, by simpa using h2, h899⟩

/-- C3: for every successfully built assertion the signed claim set is
exactly `{iss, sub, aud, exp, jti}`: `iss` and `sub` equal the
configured service-account identifier, `aud` is the derived token
endpoint URL (the one the exchange posts to), `exp` is the Unix time at
signing plus the resolved lifetime, and `jti` is the unpadded base64url
encoding of the 16 random bytes (22 characters). -/
theorem assertion_claims_exact (cfg : TokenConfig) (nowUnix : Int)
    (jtiBytes : List Nat) (h16 : jtiBytes.length = 16) :
    (createJWTAssertion cfg nowUnix jtiBytes).iss = cfg.serviceAccountID ∧
    (createJWTAssertion cfg nowUnix jtiBytes).sub = cfg.serviceAccountID ∧
    (createJWTAssertion cfg nowUnix jtiBytes).aud = exchangeTokenURL cfg ∧
    (createJWTAssertion cfg nowUnix jtiBytes).exp =
      nowUnix + resolveLifetime cfg.expSeconds cfg.expiresIn ∧
    (createJWTAssertion cfg nowUnix jtiBytes).jti = b64urlEncode jtiBytes ∧
    (createJWTAssertion cfg nowUnix jtiBytes).jti.length = 22 := by
  refine ⟨rfl, rfl, assertionAudience_eq_exchangeTokenURL cfg, rfl, rfl, ?_⟩
  show (b64urlEncode jtiBytes).length = 22
  rw [b64urlEncode_length, h16]

theorem assertion_claims_exact_witness :
    (createJWTAssertion { serviceAccountID := "sa" } 100
        (List.replicate 16 0)).iss = "sa" ∧
    (createJWTAssertion { serviceAccountID := "sa" } 100
        (List.replicate 16 0)).jti.length = 22 := by
  have h := assertion_claims_exact { serviceAccountID := "sa" } 100
    (List.replicate 16 0) (by decide)
  exact ⟨h.1, h.2.2.2.2.2⟩

/-- C4 counterexample: a configured base URL consisting of a single
slash is non-empty, yet the derivation does not use it (stripped) as the
base; it falls back to the platform field, because the fallback tests
the base URL only after stripping. -/
theorem audience_slash_base_counterexample :
    ({ baseURL := "/", platform := "https://p.example" } : TokenConfig).baseURL ≠ "" ∧
    trimRightSlashes "/" ++ "/am/oauth2/access_token" = "/am/oauth2/access_token" ∧
    assertionAudience { baseURL := "/", platform := "https://p.example" } =
      "https://p.example/am/oauth2/access_token" := by
  decide

/-- C4 (amended): the derived audience/token-endpoint URL equals the
effective base — the base URL with trailing slashes stripped, or the
platform field (stripped) when the base URL strips to the empty string —
followed by "/am/oauth2/access_token"; both call sites derive the same
URL; appending a trailing slash to the base URL never changes it; and
"https://example.com/" and "https://example.com" yield the identical
URL. -/
theorem audience_derivation (cfg : TokenConfig) :
    assertionAudience cfg = exchangeTokenURL cfg ∧
    assertionAudience { cfg with baseURL := cfg.baseURL ++ "/" } =
      assertionAudience cfg ∧
    assertionAudience cfg =
      (if trimRightSlashes cfg.baseURL = "" then trimRightSlashes cfg.platform
       else trimRightSlashes cfg.baseURL) ++ "/am/oauth2/access_token" ∧
    assertionAudience { baseURL := "https://example.com/" } =
      "https://example.com/am/oauth2/access_token" ∧
    assertionAudience { baseURL := "https://example.com" } =
      "https://example.com/am/oauth2/access_token" := by
  refine ⟨assertionAudience_eq_exchangeTokenURL cfg, ?_, ?_, by decide, by decide⟩
  · simp [assertionAudience, trimRightSlashes_append_slash]
  · simp only [assertionAudience]

/-- C5 counterexample: a service-account configuration carrying BOTH key
sources (raw JWK material and a private key) passes validation, so
validation does not require exactly one key source. -/
theorem validate_two_key_sources_accepted :
    cfgTwoKeySources.jwkJson ≠ "" ∧ cfgTwoKeySources.privateKey ≠ "" ∧
    Validate cfgTwoKeySources = .ok () := by
  decide

/-- C5 (amended): for a service-account configuration, validation
passes exactly when the service-account identifier is non-empty, base
URL and platform are not both empty, and AT LEAST one key source is
present (two at once are also accepted); whenever validation fails, the
pipeline behind `Client.Generate` is never invoked — the result is the
wrapped validation error for every possible pipeline. -/
theorem validate_gates_pipeline (c : TokenConfig) :
    (c.type = TokenTypeServiceAccount →
      ((Validate c).isOk ↔
        ¬(c.baseURL = "" ∧ c.platform = "") ∧ c.serviceAccountID ≠ "" ∧
          ¬(c.jwkJson = "" ∧ c.privateKey = ""))) ∧
    (∀ e, Validate c = .error e →
      ∀ pipeline, clientGenerate c pipeline =
        .error ("configuration validation failed: " ++ e)) := by
  constructor
  · intro ht
    simp only [Validate, ht, if_true]
    split_ifs with h1 h2 h3 <;> simp_all [Except.isOk, Except.toBool]
  · intro e he pipeline
    simp [clientGenerate, he]

theorem validate_gates_pipeline_witness :
    (Validate cfgValidServiceAccount).isOk ∧
    (∀ pipeline, clientGenerate { type := "service-account" } pipeline =
      .error ("configuration validation failed: " ++
        "baseUrl or platform is required")) := by
  constructor
  · exact ((validate_gates_pipeline cfgValidServiceAccount).1 rfl).2 (by decide)
  · exact fun pipeline =>
      (validate_gates_pipeline { type := "service-account" }).2
        "baseUrl or platform is required" (by decide) pipeline

/-- C6: every exchange response with a status other than 200 produces an
error carrying the numeric status code and the raw response body, and
never a success result, no matter whether the body would parse. -/
theorem exchange_non200_error (status : Nat) (body : String)
    (parsed : Option PaicTokenJSON) (h : status ≠ 200) :
    handleTokenResponse status body parsed =
      .error ("token request failed with status " ++ toString status ++
        ": " ++ body) := by
  simp [handleTokenResponse, h]

theorem exchange_non200_error_witness :
    handleTokenResponse 401 "\x7b\"error\":\"invalid_client\"\x7d"
        (some {}) =
      .error ("token request failed with status 401: " ++
        "\x7b\"error\":\"invalid_client\"\x7d") := by
  have h := exchange_non200_error 401 "\x7b\"error\":\"invalid_client\"\x7d"
    (some {}) (by decide)
  rw [h]
  rfl


/-- C7: a 200 response whose JSON body omits `expires_in` still
succeeds; the resulting record has `expiresIn = 0` and `expiresAt`
derived locally as the construction time plus `expiresIn`, hence equal
to `now` when `expires_in` is absent. -/
theorem expires_in_absent_result (cfg : TokenConfig) (nowUnix : Int)
    (j : PaicTokenJSON) (h : j.expires_in = none) :
    (∀ body, handleTokenResponse 200 body (some j) =
      .ok (unmarshalPaicTokenResponse j)) ∧
    (buildTokenResult cfg nowUnix (unmarshalPaicTokenResponse j)).expiresIn = 0 ∧
    (buildTokenResult cfg nowUnix
      (unmarshalPaicTokenResponse j)).expiresAtUnix = nowUnix := by
  refine ⟨fun body => by simp [handleTokenResponse], ?_, ?_⟩ <;>
    simp [buildTokenResult, unmarshalPaicTokenResponse, h]

theorem expires_in_absent_result_witness :
    handleTokenResponse 200 "\x7b\x7d"
        (some { access_token := some "abc", token_type := some "Bearer" }) =
      .ok { accessToken := "abc", tokenType := "Bearer", expiresIn := 0,
            scope := "" } ∧
    (buildTokenResult {} 1700000000
      (unmarshalPaicTokenResponse
        { access_token := some "abc",
          token_type := some "Bearer" })).expiresAtUnix = 1700000000 := by
  have h := expires_in_absent_result {} 1700000000
    { access_token := some "abc", token_type := some "Bearer" } rfl
  exact ⟨h.1 "\x7b\x7d", h.2.2⟩

/-- C8: the reconstructed private key's public exponent is 65537 for
every JWK from which a key is produced at all, and the JWK's `e` field
is never read: changing it does not change the outcome. -/
theorem public_exponent_fixed (jwk : JWK) :
    (∀ k, jwkToRSAPrivateKey jwk = .ok k → k.e = 65537) ∧
    (∀ s, jwkToRSAPrivateKey { jwk with e := s } = jwkToRSAPrivateKey jwk) := by
  constructor
  · intro k hk
    unfold jwkToRSAPrivateKey at hk
    rcases hn : b64urlDecode jwk.n with _ | nB <;> rw [hn] at hk
    · exact absurd hk (by simp)
    rcases hd : b64urlDecode jwk.d with _ | dB <;> rw [hd] at hk
    · exact absurd hk (by simp)
    rcases hp : b64urlDecode jwk.p with _ | pB <;> rw [hp] at hk
    · exact absurd hk (by simp)
    rcases hq : b64urlDecode jwk.q with _ | qB <;> rw [hq] at hk
    · exact absurd hk (by simp)
    simp only [Except.ok.injEq] at hk
    subst hk
    rfl
  · intro s
    rfl

theorem public_exponent_fixed_witness :
    (⟨0, 65537, 0, [0, 0]⟩ : RSAPrivateKey).e = 65537 ∧
    jwkToRSAPrivateKey { e := "AQAB" } = jwkToRSAPrivateKey ({} : JWK) :=
  ⟨(public_exponent_fixed ({} : JWK)).1 ⟨0, 65537, 0, [0, 0]⟩ rfl,
   (public_exponent_fixed ({} : JWK)).2 "AQAB"⟩

/-- C9: for any two assertion builds over the same configuration whose
16-byte randomness draws differ anywhere, the resulting `jti` values
differ — the unpadded base64url encoding is injective on the random
bytes. -/
theorem jti_distinct_random_bytes (cfg : TokenConfig) (now1 now2 : Int)
    (b1 b2 : List Nat) (_hl1 : b1.length = 16) (_hl2 : b2.length = 16)
    (hb1 : ∀ x ∈ b1, x < 256) (hb2 : ∀ x ∈ b2, x < 256) (hne : b1 ≠ b2) :
    (createJWTAssertion cfg now1 b1).jti ≠
      (createJWTAssertion cfg now2 b2).jti := by
  intro h
  exact hne (b64urlEncode_injOn b1 b2 hb1 hb2 h)

theorem jti_distinct_random_bytes_witness :
    (createJWTAssertion {} 0 (List.replicate 16 0)).jti ≠
      (createJWTAssertion {} 0 (1 :: List.replicate 15 0)).jti :=
  jti_distinct_random_bytes {} 0 0 (List.replicate 16 0)
    (1 :: List.replicate 15 0) (by decide) (by decide) (by decide)
    (by decide) (by decide)

/-- C1 counterexample: a JWK in which `n`, `d`, `p` and `q` are all
missing (empty after JSON parsing) is DECODED SUCCESSFULLY — Go's
base64url decoder accepts the empty string, yielding the zero big
integer for every component — so the decode step does not fail on
missing fields. -/
theorem jwk_missing_field_decode_succeeds :
    ({} : JWK).n = "" ∧ ({} : JWK).d = "" ∧ ({} : JWK).p = "" ∧
    ({} : JWK).q = "" ∧
    jwkToRSAPrivateKey ({} : JWK) =
      .ok { n := 0, e := 65537, d := 0, primes := [0, 0] } := by
  decide

/-- C1 (amended): the key-material decode fails — naming the offending
field, first failure in the order n, d, p, q — exactly when a field is
present but not valid base64url; and whenever decode fails, the whole
generation run fails with the wrapped decode error for EVERY possible
signer, network and body parser, i.e. no network request is issued. -/
theorem jwk_malformed_field_error (cfg : TokenConfig) (jwk : JWK)
    (nowSign nowResult : Int) (jtiBytes : List Nat) :
    (b64urlValid jwk.n = false →
      jwkToRSAPrivateKey jwk = .error "failed to decode modulus") ∧
    (b64urlValid jwk.n = true → b64urlValid jwk.d = false →
      jwkToRSAPrivateKey jwk = .error "failed to decode private exponent") ∧
    (b64urlValid jwk.n = true → b64urlValid jwk.d = true →
      b64urlValid jwk.p = false →
      jwkToRSAPrivateKey jwk = .error "failed to decode first prime") ∧
    (b64urlValid jwk.n = true → b64urlValid jwk.d = true →
      b64urlValid jwk.p = true → b64urlValid jwk.q = false →
      jwkToRSAPrivateKey jwk = .error "failed to decode second prime") ∧
    (∀ e, jwkToRSAPrivateKey jwk = .error e →
      ∀ sign network parseBody,
        serviceAccountGenerate cfg (some jwk) nowSign nowResult jtiBytes
            sign network parseBody =
          .error ("failed to convert JWK to RSA private key: " ++ e)) := by
  refine ⟨fun h1 => ?_, fun h1 h2 => ?_, fun h1 h2 h3 => ?_,
    fun h1 h2 h3 h4 => ?_, fun e he sign network parseBody => ?_⟩
  · simp [jwkToRSAPrivateKey, b64urlDecode, h1]
  · simp [jwkToRSAPrivateKey, b64urlDecode, h1, h2]
  · simp [jwkToRSAPrivateKey, b64urlDecode, h1, h2, h3]
  · simp [jwkToRSAPrivateKey, b64urlDecode, h1, h2, h3, h4]
  · simp [serviceAccountGenerate, he]

theorem jwk_malformed_field_error_witness :
    jwkToRSAPrivateKey { n := "%" } = .error "failed to decode modulus" ∧
    serviceAccountGenerate {} (some { n := "%" }) 0 0 []
        (fun _ _ => .ok "sig") (fun _ => (200, "ok")) (fun _ => none) =
      .error ("failed to convert JWK to RSA private key: " ++
        "failed to decode modulus") := by
  have h1 := (jwk_malformed_field_error {} { n := "%" } 0 0 []).1 (by decide)
  exact ⟨h1, (jwk_malformed_field_error {} { n := "%" } 0 0 []).2.2.2.2
    "failed to decode modulus" h1 (fun _ _ => .ok "sig")
    (fun _ => (200, "ok")) (fun _ => none)⟩

/-- C10 counterexample: a file-loaded configuration with no seconds-form
lifetime and a duration-form lifetime of half a second keeps that
duration through `LoadConfig` (it is non-zero), yet the assertion
builder truncates it to zero whole seconds and falls to the 899-second
default — the default branch IS reachable through `LoadConfig`. -/
theorem loadconfig_subsecond_duration_reaches_899 :
    cfgSubsecondLifetime.expSeconds = 0 ∧
    cfgSubsecondLifetime.expiresIn ≠ 0 ∧
    resolveLifetime (loadConfigNormalize cfgSubsecondLifetime).expSeconds
      (loadConfigNormalize cfgSubsecondLifetime).expiresIn = 899 := by
  decide

/-- C10 (amended): when neither lifetime field is set, `LoadConfig`
defaults the duration-form lifetime to 60 minutes and every assertion
built from the loaded configuration resolves a lifetime of 3600
seconds; the 899-second default branch is reachable through
`LoadConfig` exactly when the file sets no seconds-form lifetime and a
non-zero duration-form lifetime that truncates to zero whole seconds
(i.e. is smaller than one second in magnitude). -/
theorem loadconfig_lifetime_default (cfg : TokenConfig) :
    (cfg.expSeconds = 0 → cfg.expiresIn = 0 →
      (loadConfigNormalize cfg).expiresIn = 3600 * 1000000000 ∧
      resolveLifetime (loadConfigNormalize cfg).expSeconds
        (loadConfigNormalize cfg).expiresIn = 3600) ∧
    (lifetimeDefaultBranch (loadConfigNormalize cfg).expSeconds
        (loadConfigNormalize cfg).expiresIn ↔
      cfg.expSeconds = 0 ∧ cfg.expiresIn ≠ 0 ∧
        durationSeconds cfg.expiresIn = 0) := by
  have hes := loadConfigNormalize_expSeconds cfg
  have hein := loadConfigNormalize_expiresIn cfg
  have hds : durationSeconds (3600 * 1000000000) = 3600 := by decide
  constructor
  · intro h0 h1
    rw [hes, hein, h0, h1]
    decide
  · rw [hes, hein]
    by_cases h0 : cfg.expSeconds = 0
    · by_cases h1 : cfg.expiresIn = 0
      · simp only [lifetimeDefaultBranch, h0, h1, if_true, if_pos rfl]
        decide
      · simp [lifetimeDefaultBranch, h0, h1]
    · simp [lifetimeDefaultBranch, h0]

theorem loadconfig_lifetime_default_witness :
    (loadConfigNormalize {}).expiresIn = 3600 * 1000000000 ∧
    resolveLifetime (loadConfigNormalize {}).expSeconds
      (loadConfigNormalize {}).expiresIn = 3600 :=
  (loadconfig_lifetime_default {}).1 rfl rfl

end Pctl
